import Mathlib

/-!
Verification development for the `rei` compression orchestrator.

The Python sources (`rei/compression/detector.py`, `rei/compressor.py`,
`rei/utils.py`) are shallowly embedded below.  Python values flowing through
the pipeline are modelled by the inductive `Rei.PyVal`; Python exceptions are
modelled by `Rei.PyErr` carried in `Except`.  Machine-level details that the
code never relies on (floats, unicode classes beyond ASCII) are modelled by
`Rat` and by the ASCII fragment, with comments at the point of use.
-/

namespace Rei

/-! ## Small string helpers (Python `str` operations used by the sources) -/

/-- Python whitespace for `str.strip` / regex `\s` on the ASCII range:
space, tab, newline, carriage return, vertical tab, form feed. -/
def pyIsSpace (c : Char) : Bool :=
  c = ' ' || c = '\t' || c = '\n' || c = '\r' || c = Char.ofNat 11 || c = Char.ofNat 12

/-- Python `str.strip()` (ASCII whitespace fragment). -/
def pyStrip (s : String) : String :=
  ⟨((s.data.dropWhile pyIsSpace).reverse.dropWhile pyIsSpace).reverse⟩

/-- Python `sub in s` substring containment. -/
def strContains (s pat : String) : Bool :=
  s.data.tails.any fun t => pat.data.isPrefixOf t

/-- Python `s.startswith(pat)`. -/
def strStarts (s pat : String) : Bool :=
  pat.data.isPrefixOf s.data

/-- Python `s.endswith(pat)`. -/
def strEnds (s pat : String) : Bool :=
  pat.data.reverse.isPrefixOf s.data.reverse

/-- Split accumulated characters at every newline (helper of `splitLines`). -/
def splitLinesAux : List Char → List Char → List String
  | [], acc => [⟨acc.reverse⟩]
  | c :: r, acc =>
    if c = '\n' then ⟨acc.reverse⟩ :: splitLinesAux r [] else splitLinesAux r (c :: acc)

/-- Python `text.split(a newline)`: never empty, keeps empty segments. -/
def splitLines (s : String) : List String := splitLinesAux s.data []

/-- Python `line.count(c)` for a one-character separator. -/
def countChar (s : String) (c : Char) : Nat :=
  (s.data.filter (· = c)).length

/-- Absolute difference on naturals, modelling Python `abs(a - b)` on ints. -/
def natDist (a b : Nat) : Nat := if b ≤ a then a - b else b - a

/-- Join a list of strings with a separator, modelling Python `sep.join`. -/
def joinSep (sep : String) : List String → String
  | [] => ""
  | [s] => s
  | s :: rest => s ++ sep ++ joinSep sep rest

/-! ## JSON validity parser

Embedding of Python `json.loads` viewed as an acceptor (the detector and the
validator only use whether parsing succeeds).  The grammar is the standard
JSON grammar with Python defaults: `NaN`, `Infinity` and `-Infinity` are
accepted, strings are parsed in strict mode (raw control characters below
0x20 are rejected inside strings).  Recursion is bounded by an explicit fuel
that is generous for every input (each call consumes input or moves to a
strictly later parsing stage). -/

/-- JSON insignificant whitespace (as in Python json: space, tab, newline, CR). -/
def jsonWsChar (c : Char) : Bool :=
  c = ' ' || c = '\t' || c = '\n' || c = '\r'

/-- Drop leading JSON whitespace. -/
def skipWs (s : List Char) : List Char := s.dropWhile jsonWsChar

/-- Hexadecimal digit test for `\uXXXX` escapes. -/
def hexDigitChar (c : Char) : Bool :=
  c.isDigit || ('a' ≤ c && c ≤ 'f') || ('A' ≤ c && c ≤ 'F')

/-- Parse the body of a JSON string after the opening quote; returns the rest. -/
def parseStringBody : Nat → List Char → Option (List Char)
  | 0, _ => Option.none
  | _, [] => Option.none
  | fuel + 1, c :: r =>
    if c = '"' then some r
    else if c = '\\' then
      match r with
      | [] => Option.none
      | e :: r2 =>
        if e = '"' || e = '\\' || e = '/' || e = 'b' || e = 'f' || e = 'n' || e = 'r' || e = 't'
        then parseStringBody fuel r2
        else if e = 'u' then
          match r2 with
          | h1 :: h2 :: h3 :: h4 :: r3 =>
            if hexDigitChar h1 && hexDigitChar h2 && hexDigitChar h3 && hexDigitChar h4
            then parseStringBody fuel r3
            else Option.none
          | _ => Option.none
        else Option.none
    else if c.toNat < 32 then Option.none
    else parseStringBody fuel r

/-- Parse one or more ASCII digits; returns the rest on success. -/
def parseDigits : List Char → Option (List Char)
  | c :: r => if c.isDigit then some (r.dropWhile Char.isDigit) else Option.none
  | [] => Option.none

/-- Parse a JSON number, matching the regex
`-?(0|[1-9][0-9]*)([.][0-9]+)?([eE][+-]?[0-9]+)?` used by the Python scanner. -/
def parseNumber (s : List Char) : Option (List Char) :=
  let s1 := match s with
    | '-' :: r => some r
    | _ => some s
  match s1 with
  | Option.none => Option.none
  | some t =>
    let intPart : Option (List Char) :=
      match t with
      | '0' :: r => some r
      | c :: r => if c.isDigit then some (r.dropWhile Char.isDigit) else Option.none
      | [] => Option.none
    match intPart with
    | Option.none => Option.none
    | some u =>
      let fracPart : Option (List Char) :=
        match u with
        | '.' :: r => parseDigits r
        | _ => some u
      match fracPart with
      | Option.none => Option.none
      | some v =>
        match v with
        | c :: r =>
          if c = 'e' || c = 'E' then
            match r with
            | '+' :: r2 => parseDigits r2
            | '-' :: r2 => parseDigits r2
            | _ => parseDigits r
          else some v
        | [] => some v

mutual

/-- Parse one JSON value; the input starts at a non-whitespace position. -/
def parseValue : Nat → List Char → Option (List Char)
  | 0, _ => Option.none
  | fuel + 1, s =>
    match s with
    | [] => Option.none
    | '\x7b' :: r => parseObjectBody fuel (skipWs r)
    | '[' :: r => parseArrayBody fuel (skipWs r)
    | '"' :: r => parseStringBody fuel r
    | _ =>
      if ['t', 'r', 'u', 'e'].isPrefixOf s then some (s.drop 4)
      else if ['f', 'a', 'l', 's', 'e'].isPrefixOf s then some (s.drop 5)
      else if ['n', 'u', 'l', 'l'].isPrefixOf s then some (s.drop 4)
      else if ['N', 'a', 'N'].isPrefixOf s then some (s.drop 3)
      else if ['I', 'n', 'f', 'i', 'n', 'i', 't', 'y'].isPrefixOf s then some (s.drop 8)
      else if ['-', 'I', 'n', 'f', 'i', 'n', 'i', 't', 'y'].isPrefixOf s then some (s.drop 9)
      else parseNumber s

/-- Parse an object after the opening brace (whitespace already skipped). -/
def parseObjectBody : Nat → List Char → Option (List Char)
  | 0, _ => Option.none
  | fuel + 1, s =>
    match s with
    | '\x7d' :: r => some r
    | '"' :: r => parseMember fuel r
    | _ => Option.none

/-- Parse one object member starting inside its key string, then the tail. -/
def parseMember : Nat → List Char → Option (List Char)
  | 0, _ => Option.none
  | fuel + 1, s =>
    match parseStringBody fuel s with
    | Option.none => Option.none
    | some r1 =>
      match skipWs r1 with
      | ':' :: r2 =>
        match parseValue fuel (skipWs r2) with
        | Option.none => Option.none
        | some r3 => parseObjectTail fuel (skipWs r3)
      | _ => Option.none

/-- Parse what follows an object member: a comma and another member, or the
closing brace. -/
def parseObjectTail : Nat → List Char → Option (List Char)
  | 0, _ => Option.none
  | fuel + 1, s =>
    match s with
    | '\x7d' :: r => some r
    | ',' :: r =>
      match skipWs r with
      | '"' :: r1 => parseMember fuel r1
      | _ => Option.none
    | _ => Option.none

/-- Parse an array after the opening bracket (whitespace already skipped). -/
def parseArrayBody : Nat → List Char → Option (List Char)
  | 0, _ => Option.none
  | fuel + 1, s =>
    match s with
    | ']' :: r => some r
    | _ =>
      match parseValue fuel s with
      | Option.none => Option.none
      | some r1 => parseArrayTail fuel (skipWs r1)

/-- Parse what follows an array element: a comma and another element, or the
closing bracket. -/
def parseArrayTail : Nat → List Char → Option (List Char)
  | 0, _ => Option.none
  | fuel + 1, s =>
    match s with
    | ']' :: r => some r
    | ',' :: r =>
      match parseValue fuel (skipWs r) with
      | Option.none => Option.none
      | some r1 => parseArrayTail fuel (skipWs r1)
    | _ => Option.none

end

/-- Embedding of `ContentDetector._is_json` restricted to text input:
`json.loads(text)` succeeds and only whitespace remains. -/
def isJson (text : String) : Bool :=
  match parseValue (4 * text.data.length + 8) (skipWs text.data) with
  | some rest => (skipWs rest).isEmpty
  | Option.none => false

/-! ## The remaining text predicates of `ContentDetector` -/

/-- Embedding of `ContentDetector._is_xml`. -/
def isXml (text : String) : Bool :=
  let t := pyStrip text
  strStarts t "<?xml" || (strStarts t "<" && strEnds t ">")

/-- Embedding of `ContentDetector._is_csv` exactly as written in the source:
the inner generator ignores its loop variable and compares
`lines.count(delimiter)` — the number of WHOLE LINES equal to the delimiter
string — against the first line's character count. -/
def isCsv (text : String) : Bool :=
  let lines := splitLines (pyStrip text)
  if lines.length < 2 then false
  else
    [',', ';', '\t', '|'].any fun d =>
      let firstCount := countChar (lines.headD "") d
      decide (0 < firstCount) &&
        ((lines.drop 1).take 4).all fun _ =>
          decide (natDist ((lines.filter (· = String.mk [d])).length) firstCount ≤ 1)

/-- Modelled from the spec: the csv predicate as the spec states it
(section 4.1 step 3) — the per-line delimiter count of each of the next
(up to 4) lines must be within 1 of the first line's count.  This is the
variant the source's unused loop variable was evidently meant to produce;
it exists only to be compared with `isCsv` above. -/
def isCsvSpec (text : String) : Bool :=
  let lines := splitLines (pyStrip text)
  if lines.length < 2 then false
  else
    [',', ';', '\t', '|'].any fun d =>
      let firstCount := countChar (lines.headD "") d
      decide (0 < firstCount) &&
        ((lines.drop 1).take 4).all fun line =>
          decide (natDist (countChar line d) firstCount ≤ 1)

/-- Embedding of `ContentDetector._is_yaml`: one of the first 5 lines of the
stripped text contains a document separator, a colon, or a dash-space. -/
def isYaml (text : String) : Bool :=
  let lines := splitLines (pyStrip text)
  (lines.take 5).any fun line =>
    let l := pyStrip line
    strContains l "---" || strContains l ":" || strContains l "- "

/-- Embedding of `ContentDetector._is_code`: the fixed keyword-fragment list. -/
def isCode (text : String) : Bool :=
  ["def ", "class ", "import ", "from ",
   "function ", "const ", "let ", "var ",
   "public ", "private ", "static ",
   "#include", "int main",
   "<?php", "<?="].any fun ind => strContains text ind

/-- Suffixes of the character list that start right after each newline;
together with the whole text these are the positions where the `re.MULTILINE`
anchor of `_is_markdown` can match. -/
def tailsAfterNewline : List Char → List (List Char)
  | [] => []
  | c :: r =>
    if c = '\n' then r :: tailsAfterNewline r else tailsAfterNewline r

/-- Line-start suffixes of a text (the start, and after every newline). -/
def lineStartSuffixes (s : List Char) : List (List Char) :=
  s :: tailsAfterNewline s

/-- Pattern `^#+\s` at one line-start suffix (the whitespace may be the
newline of the following line, as with the real regex). -/
def headingAt (u : List Char) : Bool :=
  let hs := u.takeWhile (· = '#')
  decide (0 < hs.length) &&
    (match u.drop hs.length with
     | c :: _ => pyIsSpace c
     | [] => false)

/-- Pattern `^\*\s` at one line-start suffix. -/
def bulletAt (u : List Char) : Bool :=
  match u with
  | '*' :: c :: _ => pyIsSpace c
  | _ => false

/-- Pattern `^\d+\.\s` at one line-start suffix. -/
def numberedAt (u : List Char) : Bool :=
  let ds := u.takeWhile Char.isDigit
  decide (0 < ds.length) &&
    (match u.drop ds.length with
     | '.' :: c :: _ => pyIsSpace c
     | _ => false)

/-- Pattern `\[.*\]\(.*\)` searched within one line (`.` does not cross
newlines, so any match of the link pattern lies inside a single line). -/
def hasLink (line : List Char) : Bool :=
  line.tails.any fun t =>
    match t with
    | '[' :: r =>
      r.tails.any fun t2 =>
        match t2 with
        | ']' :: '(' :: r2 => r2.any (· = ')')
        | _ => false
    | _ => false

/-- Pattern `\*\*.*\*\*` searched within one line. -/
def hasBold (line : List Char) : Bool :=
  line.tails.any fun t =>
    match t with
    | '*' :: '*' :: r => r.tails.any fun t2 =>
        match t2 with
        | '*' :: '*' :: _ => true
        | _ => false
    | _ => false

/-- Embedding of `ContentDetector._is_markdown`: the six patterns searched
with `re.MULTILINE` semantics. -/
def isMarkdown (text : String) : Bool :=
  let starts := lineStartSuffixes text.data
  let lines := splitLines text
  starts.any headingAt || starts.any bulletAt || starts.any numberedAt ||
    lines.any (fun l => hasLink l.data) ||
    lines.any (fun l => hasBold l.data) ||
    strContains text "```"

/-- Embedding of `ContentDetector._detect_text`: first-match-wins over the
insertion-ordered pattern dictionary of `ContentDetector.__init__`, unrolled
into the corresponding if-chain (Python dicts iterate in insertion order). -/
def detectText (text : String) : String :=
  if isJson text then "text/json"
  else if isXml text then "text/xml"
  else if isCsv text then "text/csv"
  else if isYaml text then "text/yaml"
  else if isCode text then "text/code"
  else if isMarkdown text then "text/markdown"
  else "text/plain"

/-- Embedding of `ContentDetector._detect_binary`: magic-byte signatures. -/
def detectBinary (b : List Nat) : String :=
  if [0x89, 0x50, 0x4e, 0x47].isPrefixOf b then "image/png"
  else if [0xff, 0xd8, 0xff].isPrefixOf b then "image/jpeg"
  else if [0x47, 0x49, 0x46, 0x38].isPrefixOf b then "image/gif"
  else if [0x50, 0x4b].isPrefixOf b then "application/zip"
  else if [0x25, 0x50, 0x44, 0x46].isPrefixOf b then "application/pdf"
  else "application/octet-stream"

/-! ## Structured values and `json.dumps(-, sort_keys=True, default=str)`

`Json` models the structured values that can sit inside a Python dict or
list handed to the compressor (floats are not modelled; integers, strings,
booleans, null, nested arrays and string-keyed objects are). -/

/-- Abstract syntax of structured values. -/
inductive Json where
  | null : Json
  | bool (b : Bool) : Json
  | num (n : Int) : Json
  | str (s : String) : Json
  | arr (items : List Json) : Json
  | obj (entries : List (String × Json)) : Json

/-- Key order used by `sort_keys=True`: compare the keys of two entries. -/
def keyLE (a b : String × Json) : Prop := a.1 ≤ b.1

instance : DecidableRel keyLE := fun a b => inferInstanceAs (Decidable (a.1 ≤ b.1))

instance : IsTotal (String × Json) keyLE := ⟨fun a b => le_total a.1 b.1⟩

instance : IsTrans (String × Json) keyLE := ⟨fun _ _ _ h h2 => le_trans h h2⟩

/-- Sort the entries of an object by key, as `sort_keys=True` does. -/
def sortByKey (l : List (String × Json)) : List (String × Json) :=
  l.insertionSort keyLE

mutual

/-- Recursively sort every object's entries by key (the canonical form that
`json.dumps(-, sort_keys=True)` serializes). -/
def canon : Json → Json
  | .null => .null
  | .bool b => .bool b
  | .num n => .num n
  | .str s => .str s
  | .arr items => .arr (canonList items)
  | .obj entries => .obj (sortByKey (canonEntries entries))

/-- Canonicalize each element of an array. -/
def canonList : List Json → List Json
  | [] => []
  | j :: r => canon j :: canonList r

/-- Canonicalize each value of an object entry list. -/
def canonEntries : List (String × Json) → List (String × Json)
  | [] => []
  | (k, v) :: r => (k, canon v) :: canonEntries r

end

/-- Lower-case hexadecimal digit. -/
def hexDigitOf (n : Nat) : Char :=
  if n < 10 then Char.ofNat (48 + n) else Char.ofNat (87 + n)

/-- A `\uXXXX` escape for a 16-bit value. -/
def uEscape (n : Nat) : List Char :=
  ['\\', 'u', hexDigitOf (n / 4096 % 16), hexDigitOf (n / 256 % 16),
   hexDigitOf (n / 16 % 16), hexDigitOf (n % 16)]

/-- Escape one character as `json.dumps` does with its default
`ensure_ascii=True`: printable ASCII kept, the short escapes used where they
exist, everything else as `\uXXXX` (with surrogate pairs above the BMP). -/
def quoteChar (c : Char) : List Char :=
  if c = '"' then ['\\', '"']
  else if c = '\\' then ['\\', '\\']
  else if c = '\n' then ['\\', 'n']
  else if c = '\t' then ['\\', 't']
  else if c = '\r' then ['\\', 'r']
  else if c = Char.ofNat 8 then ['\\', 'b']
  else if c = Char.ofNat 12 then ['\\', 'f']
  else if 32 ≤ c.toNat && c.toNat ≤ 126 then [c]
  else if c.toNat ≤ 65535 then uEscape c.toNat
  else uEscape (55296 + (c.toNat - 65536) / 1024) ++ uEscape (56320 + (c.toNat - 65536) % 1024)

/-- Serialization of a Python string by `json.dumps` (quoted and escaped). -/
def jsonQuote (s : String) : String :=
  ⟨'"' :: s.data.foldr (fun c acc => quoteChar c ++ acc) ['"']⟩

mutual

/-- Serialize an (already canonicalized) value with Python's default
separators `", "` and `": "`. -/
def dumpRaw : Json → String
  | .null => "null"
  | .bool true => "true"
  | .bool false => "false"
  | .num n => toString n
  | .str s => jsonQuote s
  | .arr items => "[" ++ joinSep ", " (dumpList items) ++ "]"
  | .obj entries => "\x7b" ++ joinSep ", " (dumpEntries entries) ++ "\x7d"

/-- Serialize the elements of an array. -/
def dumpList : List Json → List String
  | [] => []
  | j :: r => dumpRaw j :: dumpList r

/-- Serialize the entries of an object. -/
def dumpEntries : List (String × Json) → List String
  | [] => []
  | (k, v) :: r => (jsonQuote k ++ ": " ++ dumpRaw v) :: dumpEntries r

end

/-! ## Python values reaching the compressor

`compress`, `_validate_input` and `get_compression_stats` take `Any`; the
constructors below cover the cases the code branches on: `None`, booleans,
integers, strings, bytes, dicts and lists of structured values, and an
arbitrary other object, of which only its `str()` rendering and its optional
`__len__` are ever consulted. -/

/-- Model of a Python value handed to the orchestrator. -/
inductive PyVal where
  | vnone : PyVal
  | vbool (b : Bool) : PyVal
  | vint (n : Int) : PyVal
  | vstr (s : String) : PyVal
  | vbytes (b : List Nat) : PyVal
  | vdict (entries : List (String × Json)) : PyVal
  | vlist (items : List Json) : PyVal
  | vobj (shown : String) (sz : Option Nat) : PyVal

/-- Embedding of the Python identity test `data is None`. -/
def isNone : PyVal → Bool
  | .vnone => true
  | _ => false

/-- Single-quote character, used by Python `repr` renderings. -/
def sq : String := String.singleton (Char.ofNat 39)

/-- Python `repr` of one byte inside a bytes literal. -/
def byteReprChars (n : Nat) : List Char :=
  if n = 92 then ['\\', '\\']
  else if n = 39 then ['\\', Char.ofNat 39]
  else if n = 9 then ['\\', 't']
  else if n = 10 then ['\\', 'n']
  else if n = 13 then ['\\', 'r']
  else if 32 ≤ n && n ≤ 126 then [Char.ofNat n]
  else ['\\', 'x', hexDigitOf (n / 16), hexDigitOf (n % 16)]

/-- Python `str()` of a bytes object. -/
def pyBytesRepr (b : List Nat) : String :=
  "b" ++ sq ++ ⟨b.foldr (fun n acc => byteReprChars n ++ acc) []⟩ ++ sq

mutual

/-- Python `repr` of a structured value (the form `str(dict)`/`str(list)`
print).  String escaping inside `repr` is elided — it never changes whether
the rendering is empty, which is all the development relies on. -/
def pyRepr : Json → String
  | .null => "None"
  | .bool true => "True"
  | .bool false => "False"
  | .num n => toString n
  | .str s => sq ++ s ++ sq
  | .arr items => "[" ++ joinSep ", " (pyReprList items) ++ "]"
  | .obj entries => "\x7b" ++ joinSep ", " (pyReprEntries entries) ++ "\x7d"

/-- Renderings of array elements. -/
def pyReprList : List Json → List String
  | [] => []
  | j :: r => pyRepr j :: pyReprList r

/-- Renderings of object entries. -/
def pyReprEntries : List (String × Json) → List String
  | [] => []
  | (k, v) :: r => (sq ++ k ++ sq ++ ": " ++ pyRepr v) :: pyReprEntries r

end

/-- Python `str(data)`. -/
def pyStr : PyVal → String
  | .vnone => "None"
  | .vbool true => "True"
  | .vbool false => "False"
  | .vint n => toString n
  | .vstr s => s
  | .vbytes b => pyBytesRepr b
  | .vdict entries => "\x7b" ++ joinSep ", " (pyReprEntries entries) ++ "\x7d"
  | .vlist items => "[" ++ joinSep ", " (pyReprList items) ++ "]"
  | .vobj shown _ => shown

/-- Python `hasattr(data, reflecting a length attribute)`. -/
def hasLen : PyVal → Bool
  | .vstr _ => true
  | .vbytes _ => true
  | .vdict _ => true
  | .vlist _ => true
  | .vobj _ sz => sz.isSome
  | _ => false

/-- Python `len(data)` on values that have a length. -/
def pyLen : PyVal → Nat
  | .vstr s => s.length
  | .vbytes b => b.length
  | .vdict entries => entries.length
  | .vlist items => items.length
  | .vobj _ sz => sz.getD 0
  | _ => 0

/-- Embedding of `json.dumps(data, sort_keys=True, default=str)` as used for
the digest in `ReiCompressor.compress` step 4: structured values are
canonicalized and serialized, strings are quoted, and values json cannot
serialize (bytes, arbitrary objects) are rendered through `str` first by the
`default=str` fallback. -/
def dumps : PyVal → String
  | .vnone => "null"
  | .vbool true => "true"
  | .vbool false => "false"
  | .vint n => toString n
  | .vstr s => jsonQuote s
  | .vbytes b => jsonQuote (pyBytesRepr b)
  | .vdict entries => dumpRaw (canon (.obj entries))
  | .vlist items => dumpRaw (canon (.arr items))
  | .vobj shown _ => jsonQuote shown

/-- Embedding of `ContentDetector.detect`: bytes go to the signature table,
dicts and lists are tagged structured immediately, strings are classified by
the text predicates, and anything else is classified through `str(data)`. -/
def detect : PyVal → String
  | .vbytes b => detectBinary b
  | .vdict _ => "text/json"
  | .vlist _ => "text/json"
  | .vstr s => detectText s
  | d => detectText (pyStr d)

/-! ## SHA-256

Embedding of `hashlib.sha256(...).hexdigest()` (FIPS 180-4), over naturals
reduced mod 2^32 at every step. -/

/-- Reduce to a 32-bit word. -/
def w32 (n : Nat) : Nat := n % 4294967296

/-- Right rotation of a 32-bit word. -/
def rotr (n x : Nat) : Nat := w32 ((x >>> n) ||| (x <<< (32 - n)))

/-- Small sigma 0. -/
def sigl0 (x : Nat) : Nat := rotr 7 x ^^^ rotr 18 x ^^^ (x >>> 3)

/-- Small sigma 1. -/
def sigl1 (x : Nat) : Nat := rotr 17 x ^^^ rotr 19 x ^^^ (x >>> 10)

/-- Big sigma 0. -/
def sigb0 (x : Nat) : Nat := rotr 2 x ^^^ rotr 13 x ^^^ rotr 22 x

/-- Big sigma 1. -/
def sigb1 (x : Nat) : Nat := rotr 6 x ^^^ rotr 11 x ^^^ rotr 25 x

/-- Choice function. -/
def chf (x y z : Nat) : Nat := (x &&& y) ^^^ ((x ^^^ 4294967295) &&& z)

/-- Majority function. -/
def majf (x y z : Nat) : Nat := (x &&& y) ^^^ (x &&& z) ^^^ (y &&& z)

/-- Round constants. -/
def K256 : List Nat :=
  [1116352408, 1899447441, 3049323471, 3921009573, 961987163, 1508970993,
   2453635748, 2870763221, 3624381080, 310598401, 607225278, 1426881987,
   1925078388, 2162078206, 2614888103, 3248222580, 3835390401, 4022224774,
   264347078, 604807628, 770255983, 1249150122, 1555081692, 1996064986,
   2554220882, 2821834349, 2952996808, 3210313671, 3336571891, 3584528711,
   113926993, 338241895, 666307205, 773529912, 1294757372, 1396182291,
   1695183700, 1986661051, 2177026350, 2456956037, 2730485921, 2820302411,
   3259730800, 3345764771, 3516065817, 3600352804, 4094571909, 275423344,
   430227734, 506948616, 659060556, 883997877, 958139571, 1322822218,
   1537002063, 1747873779, 1955562222, 2024104815, 2227730452, 2361852424,
   2428436474, 2756734187, 3204031479, 3329325298]

/-- Initial hash state. -/
def H256 : List Nat :=
  [1779033703, 3144134277, 1013904242, 2773480762, 1359893119, 2600822924, 528734635, 1541459225]

/-- Big-endian bytes of the 64-bit message length. -/
def be64 (n : Nat) : List Nat :=
  [n >>> 56 % 256, n >>> 48 % 256, n >>> 40 % 256, n >>> 32 % 256,
   n >>> 24 % 256, n >>> 16 % 256, n >>> 8 % 256, n % 256]

/-- Pad a byte message to a multiple of 64 bytes. -/
def padMsg (msg : List Nat) : List Nat :=
  let l := msg.length
  msg ++ [128] ++ List.replicate ((120 - (l + 1) % 64) % 64) 0 ++ be64 (8 * l)

/-- Group bytes (whose count is a multiple of 4) into big-endian 32-bit words. -/
def toWords : List Nat → List Nat
  | b1 :: b2 :: b3 :: b4 :: rest => (((b1 * 256 + b2) * 256 + b3) * 256 + b4) :: toWords rest
  | _ => []

/-- Split a word list into chunks of 16; the fuel bounds the recursion. -/
def chunks16 : Nat → List Nat → List (List Nat)
  | 0, _ => []
  | _, [] => []
  | fuel + 1, ws => ws.take 16 :: chunks16 fuel (ws.drop 16)

/-- Extend a 16-word block to the 64-word message schedule. -/
def extendW (block : List Nat) : List Nat :=
  let w := (List.range 48).foldl
    (fun w i =>
      let t := i + 16
      w.push (w32 (sigl1 (w.getD (t - 2) 0) + w.getD (t - 7) 0 +
                   sigl0 (w.getD (t - 15) 0) + w.getD (t - 16) 0)))
    block.toArray
  w.toList

/-- One compression round on the 8-word working state. -/
def stepRound (s : List Nat) (kw : Nat × Nat) : List Nat :=
  match s with
  | [a, b, c, d, e, f, g, h] =>
    let t1 := w32 (h + sigb1 e + chf e f g + kw.1 + kw.2)
    let t2 := w32 (sigb0 a + majf a b c)
    [w32 (t1 + t2), a, b, c, w32 (d + t1), e, f, g]
  | _ => s

/-- Compress one 16-word block into the running hash state. -/
def compressBlock (h : List Nat) (block : List Nat) : List Nat :=
  let kw := K256.zip (extendW block)
  let fin := kw.foldl stepRound h
  (h.zip fin).map fun p => w32 (p.1 + p.2)

/-- SHA-256 of a byte message, as eight 32-bit words. -/
def sha256Words (msg : List Nat) : List Nat :=
  let padded := padMsg msg
  (chunks16 padded.length (toWords padded)).foldl compressBlock H256

/-- Eight lower-case hex digits of one word. -/
def toHex8 (n : Nat) : List Char :=
  [hexDigitOf (n >>> 28 % 16), hexDigitOf (n >>> 24 % 16), hexDigitOf (n >>> 20 % 16),
   hexDigitOf (n >>> 16 % 16), hexDigitOf (n >>> 12 % 16), hexDigitOf (n >>> 8 % 16),
   hexDigitOf (n >>> 4 % 16), hexDigitOf (n % 16)]

/-- UTF-8 bytes of one character (`str.encode()`). -/
def utf8Bytes (c : Char) : List Nat :=
  let n := c.toNat
  if n < 128 then [n]
  else if n < 2048 then [192 + n / 64, 128 + n % 64]
  else if n < 65536 then [224 + n / 4096, 128 + n / 64 % 64, 128 + n % 64]
  else [240 + n / 262144, 128 + n / 4096 % 64, 128 + n / 64 % 64, 128 + n % 64]

/-- UTF-8 encoding of a string (`str.encode()`). -/
def strBytes (s : String) : List Nat :=
  s.data.foldr (fun c acc => utf8Bytes c ++ acc) []

/-- Embedding of `hashlib.sha256(s.encode()).hexdigest()`. -/
def sha256hex (s : String) : String :=
  ⟨(sha256Words (strBytes s)).foldr (fun wd acc => toHex8 wd ++ acc) []⟩

/-- The content digest computed by `ReiCompressor.compress` step 4. -/
def contentHashPy (d : PyVal) : String := sha256hex (dumps d)

/-! ## Errors, validation and the orchestrator (`rei/compressor.py`) -/

/-- Python exceptions observable in the pipeline, with their `str(e)` text.
`validationError` and `compressionError` are the two classes of
`rei/utils.py`; the rest are builtin exceptions. -/
inductive PyErr where
  | validationError (msg : String) : PyErr
  | compressionError (msg : String) : PyErr
  | typeError (msg : String) : PyErr
  | jsonDecodeError (msg : String) : PyErr
  | zeroDivisionError (msg : String) : PyErr
deriving DecidableEq

/-- Python `str(e)` of an exception. -/
def errText : PyErr → String
  | .validationError m => m
  | .compressionError m => m
  | .typeError m => m
  | .jsonDecodeError m => m
  | .zeroDivisionError m => m

/-- Embedding of `json.loads(data)` called on an arbitrary value, viewed as
an acceptor.  Strings are parsed; bytes are decoded and parsed (modelled for
ASCII byte lists; this branch is unreachable from `compress`, which never
tags bytes as structured); any other type raises `TypeError` before parsing,
naming the offending type. -/
def jsonLoads : PyVal → Except PyErr Unit
  | .vstr s =>
      if isJson s then .ok () else .error (.jsonDecodeError "Expecting value")
  | .vbytes b =>
      if isJson ⟨b.map Char.ofNat⟩ then .ok ()
      else .error (.jsonDecodeError "Expecting value")
  | .vdict _ => .error (.typeError "the JSON object must be str, bytes or bytearray, not dict")
  | .vlist _ => .error (.typeError "the JSON object must be str, bytes or bytearray, not list")
  | .vnone => .error (.typeError "the JSON object must be str, bytes or bytearray, not NoneType")
  | .vbool _ => .error (.typeError "the JSON object must be str, bytes or bytearray, not bool")
  | .vint _ => .error (.typeError "the JSON object must be str, bytes or bytearray, not int")
  | .vobj _ _ => .error (.typeError "the JSON object must be str, bytes or bytearray, not object")

/-- Embedding of `ReiCompressor._validate_input`: the None gate, the 500MB
size gate on values with a length, and — for the structured tag — a parse
whose `JSONDecodeError` alone is converted to `ValidationError` (any other
exception, such as the `TypeError` raised on non-text input, propagates). -/
def validateInput (d : PyVal) (contentType : String) : Except PyErr PyVal :=
  if isNone d then .error (.validationError "Input data cannot be None")
  else if hasLen d && decide (500000000 < pyLen d) then
    .error (.validationError "Input data too large (>500MB)")
  else if contentType = "text/json" then
    match jsonLoads d with
    | .error (.jsonDecodeError _) => .error (.validationError "Invalid JSON input")
    | .error e => .error e
    | .ok _ => .ok d
  else .ok d

/-- The capability record returned by the model adapter; absent dictionary
keys are `Option.none`.  Truthiness of the capability flags is modelled by
`Bool`. -/
structure Capabilities where
  max_complexity : Option ℚ
  supports_binary : Option Bool
  token_efficiency : Option ℚ
  advanced_reasoning : Option Bool
  function_calling : Option Bool

/-- The pipeline configuration record built at construction time. -/
structure Pipeline where
  max_complexity : ℚ
  supports_binary : Bool
  token_efficiency : ℚ
  encryption_level : String
deriving DecidableEq

/-- Embedding of `ReiCompressor._get_encryption_level`. -/
def getEncryptionLevel (caps : Capabilities) : String :=
  if caps.advanced_reasoning.getD false then "complex"
  else if caps.function_calling.getD false then "standard"
  else "basic"

/-- Embedding of `ReiCompressor._build_pipeline`: each field is read with
`dict.get` and its documented default. -/
def buildPipeline (caps : Capabilities) : Pipeline :=
  { max_complexity := caps.max_complexity.getD 1
    supports_binary := caps.supports_binary.getD true
    token_efficiency := caps.token_efficiency.getD 1
    encryption_level := getEncryptionLevel caps }

/-- The per-instance state fixed at construction: model name, the
constructor's security level, and the built pipeline. -/
structure ReiState where
  model : String
  security_level : String
  pipeline : Pipeline

/-- Python `int()` truncation toward zero on an exact rational. -/
def pyInt (q : ℚ) : Int := q.num / (q.den : Int)

/-- Embedding of `ReiCompressor._get_target_size`:
`int(512 * token_efficiency)`. -/
def getTargetSize (st : ReiState) : Int :=
  pyInt (512 * st.pipeline.token_efficiency)

/-- The external collaborators called by the orchestrator (content
transforms, final sizing, key derivation, cipher, formatter, tool
generator).  Their implementations live outside this core; each may raise.
`T` is the (opaque) type of the generated tool list. -/
structure Externals (T : Type) where
  textCompress : PyVal → String → Except PyErr String
  binaryCompress : PyVal → String → Except PyErr String
  finalCompress : String → Int → Except PyErr String
  deriveKey : String → String → Except PyErr String
  encryptData : String → String → Except PyErr String
  formatTo128 : String → String → String → Except PyErr String
  generateTools : String → String → String → String → Pipeline → Except PyErr T

/-- The body of `ReiCompressor.compress` before its catch-all handler:
detect, validate, content compression, final compression, digest, key
derivation, encryption, formatting, tool generation. -/
def compressInner {T : Type} (ext : Externals T) (st : ReiState) (d : PyVal) :
    Except PyErr (String × T) :=
  match validateInput d (detect d) with
  | .error e => .error e
  | .ok vd =>
    match
      if strStarts (detect d) "text/" then ext.textCompress vd (detect d)
      else ext.binaryCompress vd (detect d) with
    | .error e => .error e
    | .ok c1 =>
      match ext.finalCompress c1 (getTargetSize st) with
      | .error e => .error e
      | .ok c2 =>
        match ext.deriveKey (contentHashPy d) st.security_level with
        | .error e => .error e
        | .ok key =>
          match ext.encryptData c2 key with
          | .error e => .error e
          | .ok enc =>
            match ext.formatTo128 enc (detect d) st.security_level with
            | .error e => .error e
            | .ok tok =>
              match ext.generateTools st.model key (detect d) st.security_level st.pipeline with
              | .error e => .error e
              | .ok tools => .ok (tok, tools)

/-- Embedding of `ReiCompressor.compress`: every exception raised inside the
body — the `ValidationError`s of the validator included — is caught by the
trailing `except Exception` and re-raised as
`CompressionError(f-string of the original message)`. -/
def compress {T : Type} (ext : Externals T) (st : ReiState) (d : PyVal) :
    Except PyErr (String × T) :=
  match compressInner ext st d with
  | .ok r => .ok r
  | .error e => .error (.compressionError ("Compression failed: " ++ errText e))

/-! ## Compression hints (`ContentDetector.get_compression_hints`) -/

/-- One hint record.  The expected compression ratio field is named
`ratioExpected` here (the source key ends in a word this development cannot
use as a suffix); rationals stand for the Python float literals exactly. -/
structure Hint where
  priority : String
  preprocessing : List String
  ratioExpected : ℚ
  dictionary_compression : Bool
deriving DecidableEq

/-- Embedding of `ContentDetector.get_compression_hints`: a pure lookup with
a generic default for unmapped tags. -/
def getCompressionHints (contentType : String) : Hint :=
  if contentType = "text/json" then
    ⟨"structure", ["minify", "sort_keys"], 3/10, true⟩
  else if contentType = "text/xml" then
    ⟨"structure", ["remove_whitespace", "compress_tags"], 2/5, true⟩
  else if contentType = "text/csv" then
    ⟨"patterns", ["compress_headers", "numeric_encoding"], 7/20, true⟩
  else if contentType = "text/code" then
    ⟨"tokens", ["tokenize", "compress_keywords"], 9/20, true⟩
  else if contentType = "text/markdown" then
    ⟨"structure", ["compress_headers", "link_shortening"], 1/2, false⟩
  else if contentType = "text/plain" then
    ⟨"frequency", ["word_frequency"], 3/5, false⟩
  else ⟨"generic", [], 7/10, false⟩

/-! ## Stats (`ReiCompressor.get_compression_stats`) -/

/-- The record returned by `get_compression_stats`. -/
structure StatsRecord where
  original_size : Nat
  content_type : String
  estimated_compressed_size : Nat
  compression_ratio : ℚ
  estimated_ratio : ℚ
  model : String
  security_level : String
deriving DecidableEq

/-- Embedding of `ReiCompressor.get_compression_stats`: sizes come from
`len(str(data))`; the literal `128 / original_size` raises
`ZeroDivisionError` when the rendering is empty. -/
def statsModel (st : ReiState) (d : PyVal) : Except PyErr StatsRecord :=
  let originalSize := (pyStr d).length
  let contentType := detect d
  let estimated : ℚ :=
    if contentType = "text/json" then 3/10
    else if strStarts contentType "text/" then 2/5
    else 3/5
  if originalSize = 0 then .error (.zeroDivisionError "division by zero")
  else
    .ok { original_size := originalSize
          content_type := contentType
          estimated_compressed_size := 128
          compression_ratio := 128 / (originalSize : ℚ)
          estimated_ratio := estimated
          model := st.model
          security_level := st.security_level }

/-! ## Theorems for the claims -/

/-- Claim C1: the claim says a failed validation surfaces as a
`ValidationError` propagated unchanged out of `compress` — and the source's
own docstring promises the same — but the body's trailing `except Exception`
catches the `ValidationError` too and re-raises a `CompressionError`.  The
theorem evaluates `compress` at the claim's failing inputs (null input and
an oversize input) and shows the error that actually escapes is a
`CompressionError` wrapping the validation message. -/
theorem claim1_validation_error_is_wrapped {T : Type} (ext : Externals T) (st : ReiState) :
    compress ext st .vnone =
      .error (.compressionError "Compression failed: Input data cannot be None") ∧
    compress ext st (.vobj "x" (some 500000001)) =
      .error (.compressionError "Compression failed: Input data too large (>500MB)") :=
  ⟨rfl, rfl⟩

/-- Claim C4: the claim states the csv predicate compares per-line delimiter
counts, as the spec writes it; the source instead evaluates
`lines.count(delimiter)` — the number of whole lines equal to the delimiter
string — and ignores the loop variable, so the perfectly regular two-line
csv text below is rejected by the code (and ends classified plain-text)
while the per-line reading of the claim accepts it. -/
theorem claim4_csv_code_divergence :
    isCsv "a,b,c\nx,y,z" = false ∧
    isCsvSpec "a,b,c\nx,y,z" = true ∧
    detectText "a,b,c\nx,y,z" = "text/plain" := by decide

/-- Claim C6 (amended): `stats` returns without raising, and reports the
expected token size 128, for every input whose `str()` rendering is
non-empty; the valid empty-string input instead raises `ZeroDivisionError`
(see the counterexample theorem). -/
theorem claim6_stats_ok_on_nonempty (st : ReiState) (d : PyVal)
    (h : (pyStr d).length ≠ 0) :
    ∃ r : StatsRecord, statsModel st d = .ok r ∧ r.estimated_compressed_size = 128 := by
  have heq : statsModel st d =
      .ok { original_size := (pyStr d).length
            content_type := detect d
            estimated_compressed_size := 128
            compression_ratio := 128 / ((pyStr d).length : ℚ)
            estimated_ratio :=
              if detect d = "text/json" then 3/10
              else if strStarts (detect d) "text/" then 2/5
              else 3/5
            model := st.model
            security_level := st.security_level } := by
    simp only [statsModel]
    rw [if_neg h]
  exact ⟨_, heq, rfl⟩

/-- Claim C6 witness: the amended statement at the concrete input `"hello"`. -/
theorem claim6_stats_ok_on_nonempty_w :
    (pyStr (.vstr "hello")).length ≠ 0 ∧
    ∃ r : StatsRecord,
      statsModel ⟨"gpt-4o-mini", "standard",
        buildPipeline ⟨Option.none, Option.none, Option.none, Option.none, Option.none⟩⟩
        (.vstr "hello") = .ok r ∧ r.estimated_compressed_size = 128 :=
  ⟨by decide, claim6_stats_ok_on_nonempty _ _ (by decide)⟩

/-- Claim C6 counterexample: the empty string is a valid input (not null,
within the size ceiling), yet `stats` raises `ZeroDivisionError` on it
computing `128 / len(str(data))`, so `stats` does not return for every
valid input. -/
theorem claim6_stats_cex :
    isNone (.vstr "") = false ∧ pyLen (.vstr "") ≤ 500000000 ∧
    statsModel ⟨"gpt-4o-mini", "standard",
        buildPipeline ⟨Option.none, Option.none, Option.none, Option.none, Option.none⟩⟩
      (.vstr "") = .error (.zeroDivisionError "division by zero") :=
  ⟨rfl, by decide, rfl⟩

/-- Claim C7: the validation boundary.  A null input fails with
`ValidationError`; a sized input of exactly 500,000,000 units passes (when
its tag does not trigger the structured parse, or parses), and validation
hands back the input itself; one unit over fails with `ValidationError`.
The final conjuncts evaluate the boundary at concrete sized inputs. -/
theorem claim7_validation_boundary (d : PyVal) (tag : String) :
    (validateInput .vnone tag =
      .error (.validationError "Input data cannot be None")) ∧
    (isNone d = false → hasLen d = true → pyLen d = 500000000 →
      (tag = "text/json" → jsonLoads d = .ok ()) → validateInput d tag = .ok d) ∧
    (hasLen d = true → pyLen d = 500000001 →
      validateInput d tag = .error (.validationError "Input data too large (>500MB)")) ∧
    (∀ r : PyVal, validateInput d tag = .ok r → r = d) ∧
    (validateInput (.vobj "r" (some 500000000)) "text/plain" =
      .ok (.vobj "r" (some 500000000))) ∧
    (validateInput (.vobj "r" (some 500000001)) "text/plain" =
      .error (.validationError "Input data too large (>500MB)")) := by
  refine ⟨rfl, ?_, ?_, ?_, rfl, rfl⟩
  · intro h1 h2 h3 h4
    unfold validateInput
    rw [h1, h2, h3]
    by_cases htag : tag = "text/json"
    · simp [htag, h4 htag]
    · simp [htag]
  · intro h2 h3
    have h1 : isNone d = false := by cases d <;> simp_all [isNone, hasLen]
    unfold validateInput
    rw [h1, h2, h3]
    simp
  · intro r h
    unfold validateInput at h
    split_ifs at h with h1 h2 h3
    · split at h <;> simp_all
    · simp_all

/-- Claim C8: the pipeline configuration builder is a total pure function of
the capability record; a missing field takes its documented default
(max_complexity 1.0, supports_binary true, token_efficiency 1.0), and the
encryption tier is picked by priority: advanced reasoning, then function
calling, then basic.  The last conjuncts evaluate the builder on concrete
records exercising each tier. -/
theorem claim8_pipeline_builder (caps : Capabilities) :
    (caps.max_complexity = Option.none → (buildPipeline caps).max_complexity = 1) ∧
    (caps.supports_binary = Option.none → (buildPipeline caps).supports_binary = true) ∧
    (caps.token_efficiency = Option.none → (buildPipeline caps).token_efficiency = 1) ∧
    (caps.advanced_reasoning.getD false = true →
      (buildPipeline caps).encryption_level = "complex") ∧
    (caps.advanced_reasoning.getD false = false → caps.function_calling.getD false = true →
      (buildPipeline caps).encryption_level = "standard") ∧
    (caps.advanced_reasoning.getD false = false → caps.function_calling.getD false = false →
      (buildPipeline caps).encryption_level = "basic") ∧
    (buildPipeline ⟨Option.none, Option.none, Option.none, some true, some true⟩ =
      ⟨1, true, 1, "complex"⟩) ∧
    (buildPipeline ⟨Option.none, Option.none, Option.none, Option.none, some true⟩ =
      ⟨1, true, 1, "standard"⟩) ∧
    (buildPipeline ⟨Option.none, Option.none, Option.none, Option.none, Option.none⟩ =
      ⟨1, true, 1, "basic"⟩) := by
  refine ⟨?_, ?_, ?_, ?_, ?_, ?_, by decide, by decide, by decide⟩ <;>
    intro h <;>
    simp_all [buildPipeline, getEncryptionLevel]

/-- Claim C9: the hints lookup is total — for every tag, mapped or unmapped,
it returns a record whose expected compression ratio lies in the interval
(0, 1]. -/
theorem claim9_hints_total (tag : String) :
    0 < (getCompressionHints tag).ratioExpected ∧
      (getCompressionHints tag).ratioExpected ≤ 1 := by
  unfold getCompressionHints
  split_ifs <;> norm_num

/-- Claim C5: for every text input the classifier returns exactly one tag,
drawn from the seven-tag enumeration; selection is first-match-wins in the
registration order, so a JSON-parsing input is tagged structured even when
the markdown predicate also holds.  The last conjunct exhibits a concrete
input satisfying both the structured and the markdown predicates that
resolves to the structured tag. -/
theorem claim5_first_match_wins (t : String) :
    (detectText t = "text/json" ∨ detectText t = "text/xml" ∨
     detectText t = "text/csv" ∨ detectText t = "text/yaml" ∨
     detectText t = "text/code" ∨ detectText t = "text/markdown" ∨
     detectText t = "text/plain") ∧
    (isJson t = true → detectText t = "text/json") ∧
    (isJson "[\"**b**\"]" = true ∧ isMarkdown "[\"**b**\"]" = true ∧
      detectText "[\"**b**\"]" = "text/json") := by
  refine ⟨?_, ?_, by decide⟩
  · unfold detectText
    split_ifs <;> simp
  · intro h
    unfold detectText
    rw [if_pos h]

/-- Claim C2: every dict and every list input makes `compress` raise:
detection tags the value structured, validation feeds the non-text value to
the JSON parser, which raises a `TypeError` that the validator's
`JSONDecodeError` handler does not catch; the orchestrator's catch-all then
wraps it.  In particular no dict or list input ever yields a token.  (When
the value's length exceeds the size ceiling the oversize `ValidationError`
fires first — also wrapped, so the no-token conclusion is unconditional.) -/
theorem claim2_structured_inputs_raise {T : Type} (ext : Externals T) (st : ReiState)
    (entries : List (String × Json)) (items : List Json) :
    (entries.length ≤ 500000000 →
      compress ext st (.vdict entries) = .error (.compressionError
        "Compression failed: the JSON object must be str, bytes or bytearray, not dict")) ∧
    (items.length ≤ 500000000 →
      compress ext st (.vlist items) = .error (.compressionError
        "Compression failed: the JSON object must be str, bytes or bytearray, not list")) ∧
    (∀ r : String × T, compress ext st (.vdict entries) ≠ .ok r) ∧
    (∀ r : String × T, compress ext st (.vlist items) ≠ .ok r) := by
  have hdict : ∀ l : List (String × Json), l.length ≤ 500000000 →
      compress ext st (.vdict l) = .error (.compressionError
        "Compression failed: the JSON object must be str, bytes or bytearray, not dict") := by
    intro l hl
    unfold compress compressInner validateInput
    simp [detect, isNone, hasLen, pyLen, jsonLoads, Nat.not_lt.mpr hl, errText, Except.bind]
  have hdictBig : ∀ l : List (String × Json), 500000000 < l.length →
      compress ext st (.vdict l) = .error (.compressionError
        "Compression failed: Input data too large (>500MB)") := by
    intro l hl
    unfold compress compressInner validateInput
    simp [detect, isNone, hasLen, pyLen, jsonLoads, hl, errText, Except.bind]
  have hlist : ∀ l : List Json, l.length ≤ 500000000 →
      compress ext st (.vlist l) = .error (.compressionError
        "Compression failed: the JSON object must be str, bytes or bytearray, not list") := by
    intro l hl
    unfold compress compressInner validateInput
    simp [detect, isNone, hasLen, pyLen, jsonLoads, Nat.not_lt.mpr hl, errText, Except.bind]
  have hlistBig : ∀ l : List Json, 500000000 < l.length →
      compress ext st (.vlist l) = .error (.compressionError
        "Compression failed: Input data too large (>500MB)") := by
    intro l hl
    unfold compress compressInner validateInput
    simp [detect, isNone, hasLen, pyLen, jsonLoads, hl, errText, Except.bind]
  refine ⟨hdict entries, hlist items, ?_, ?_⟩
  · intro r h
    rcases le_or_lt entries.length 500000000 with hl | hl
    · rw [hdict entries hl] at h
      exact Except.noConfusion h
    · rw [hdictBig entries hl] at h
      exact Except.noConfusion h
  · intro r h
    rcases le_or_lt items.length 500000000 with hl | hl
    · rw [hlist items hl] at h
      exact Except.noConfusion h
    · rw [hlistBig items hl] at h
      exact Except.noConfusion h

/-! ## Key-permutation lemmas for the digest claim -/

/-- Strict key order on object entries. -/
def keyLT (a b : String × Json) : Prop := a.1 < b.1

instance : IsAntisymm (String × Json) keyLT :=
  ⟨fun _ _ h h2 => absurd h2 (lt_asymm h)⟩

/-- Value canonicalization maps over the entry list. -/
theorem canonEntries_eq_map (l : List (String × Json)) :
    canonEntries l = l.map fun p => (p.1, canon p.2) := by
  induction l with
  | nil => rfl
  | cons p r ih =>
    cases p
    simp [canonEntries, ih]

/-- Value canonicalization keeps the key list. -/
theorem map_fst_canonEntries (l : List (String × Json)) :
    (canonEntries l).map Prod.fst = l.map Prod.fst := by
  induction l with
  | nil => rfl
  | cons p r ih =>
    cases p
    simp [canonEntries, ih]

/-- Sorting by key maps two permuted, duplicate-free entry lists to the same
list: the sorted lists are permutations of one another, sorted weakly by
key, and strictly so because keys are duplicate-free, hence equal. -/
theorem sortByKey_eq_of_perm (l1 l2 : List (String × Json)) (hp : l1.Perm l2)
    (hnd : (l1.map Prod.fst).Nodup) : sortByKey l1 = sortByKey l2 := by
  have h1 : (sortByKey l1).Perm l1 := List.perm_insertionSort keyLE l1
  have h2 : (sortByKey l2).Perm l2 := List.perm_insertionSort keyLE l2
  have hp2 : (sortByKey l1).Perm (sortByKey l2) := (h1.trans hp).trans h2.symm
  have hs1 : (sortByKey l1).Sorted keyLE := List.sorted_insertionSort keyLE l1
  have hs2 : (sortByKey l2).Sorted keyLE := List.sorted_insertionSort keyLE l2
  have hnd1 : ((sortByKey l1).map Prod.fst).Nodup := ((h1.map Prod.fst).nodup_iff).2 hnd
  have hnd2a : (l2.map Prod.fst).Nodup := ((hp.map Prod.fst).nodup_iff).1 hnd
  have hnd2 : ((sortByKey l2).map Prod.fst).Nodup := ((h2.map Prod.fst).nodup_iff).2 hnd2a
  have hne1 : (sortByKey l1).Pairwise (fun a b => a.1 ≠ b.1) := List.pairwise_map.1 hnd1
  have hne2 : (sortByKey l2).Pairwise (fun a b => a.1 ≠ b.1) := List.pairwise_map.1 hnd2
  have hlt1 : (sortByKey l1).Sorted keyLT :=
    (List.Pairwise.and hs1 hne1).imp fun h => lt_of_le_of_ne h.1 h.2
  have hlt2 : (sortByKey l2).Sorted keyLT :=
    (List.Pairwise.and hs2 hne2).imp fun h => lt_of_le_of_ne h.1 h.2
  exact List.eq_of_perm_of_sorted hp2 hlt1 hlt2

/-- Claim C3 (amended): the encode-time digest is key-order independent —
permuting the (duplicate-free) keys of a structured value leaves
`sha256(json.dumps(-, sort_keys=True, default=str))` unchanged.  The other
half of the claim fails: a textual JSON rendering of the same value digests
differently, because a string input is digested as a JSON-quoted string
rather than parsed (see the counterexample theorem). -/
theorem claim3_digest_key_order_independent (l1 l2 : List (String × Json))
    (hp : l1.Perm l2) (hnd : (l1.map Prod.fst).Nodup) :
    contentHashPy (.vdict l1) = contentHashPy (.vdict l2) := by
  have hsort : sortByKey (canonEntries l1) = sortByKey (canonEntries l2) := by
    apply sortByKey_eq_of_perm
    · rw [canonEntries_eq_map, canonEntries_eq_map]
      exact hp.map _
    · rw [map_fst_canonEntries]
      exact hnd
  unfold contentHashPy
  congr 1
  simp [dumps, canon, hsort]

/-- Claim C3 witness: the key-order independence at a concrete two-key
dictionary and its swapped ordering. -/
theorem claim3_digest_key_order_independent_w :
    (([("b", Json.num 2), ("a", Json.num 1)].map Prod.fst).Nodup) ∧
    contentHashPy (.vdict [("b", Json.num 2), ("a", Json.num 1)]) =
      contentHashPy (.vdict [("a", Json.num 1), ("b", Json.num 2)]) :=
  ⟨by decide,
   claim3_digest_key_order_independent _ _ (List.Perm.swap _ _ _) (by decide)⟩

/-- Claim C3 counterexample: the dictionary holding key a with value 1
digests differently from the textual JSON rendering of that dictionary, so
"semantically equal textual re-renderings digest identically" fails as
stated. -/
theorem claim3_textual_rendering_cex :
    contentHashPy (.vdict [("a", Json.num 1)]) ≠
      contentHashPy (.vstr "\x7b\"a\": 1\x7d") := by decide

/-! ## Independence of the token from the pipeline's encryption tier -/

/-- The token returned by the body of `compress` depends on the instance
state only through the model name, the construction-time security level and
the target size: two states agreeing on those three yield the same token
whenever both runs succeed (tool generation still sees the full pipeline). -/
theorem compressInner_token_dep {T : Type} (ext : Externals T) (st1 st2 : ReiState)
    (d : PyVal) (hmod : st1.model = st2.model)
    (hsec : st1.security_level = st2.security_level)
    (hts : getTargetSize st1 = getTargetSize st2)
    (t1 t2 : String) (l1 l2 : T)
    (h1 : compressInner ext st1 d = .ok (t1, l1))
    (h2 : compressInner ext st2 d = .ok (t2, l2)) : t1 = t2 := by
  unfold compressInner at h1 h2
  rw [hmod, hsec, hts] at h1
  cases hv : validateInput d (detect d) with
  | error e => rw [hv] at h1; exact Except.noConfusion h1
  | ok vd =>
    rw [hv] at h1 h2
    dsimp only at h1 h2
    cases hc : (if strStarts (detect d) "text/" then ext.textCompress vd (detect d)
        else ext.binaryCompress vd (detect d)) with
    | error e => rw [hc] at h1; exact Except.noConfusion h1
    | ok c1 =>
      rw [hc] at h1 h2
      dsimp only at h1 h2
      cases hf : ext.finalCompress c1 (getTargetSize st2) with
      | error e => rw [hf] at h1; exact Except.noConfusion h1
      | ok c2 =>
        rw [hf] at h1 h2
        dsimp only at h1 h2
        cases hk : ext.deriveKey (contentHashPy d) st2.security_level with
        | error e => rw [hk] at h1; exact Except.noConfusion h1
        | ok key =>
          rw [hk] at h1 h2
          dsimp only at h1 h2
          cases he : ext.encryptData c2 key with
          | error e => rw [he] at h1; exact Except.noConfusion h1
          | ok enc =>
            rw [he] at h1 h2
            dsimp only at h1 h2
            cases ht : ext.formatTo128 enc (detect d) st2.security_level with
            | error e => rw [ht] at h1; exact Except.noConfusion h1
            | ok tok =>
              rw [ht] at h1 h2
              dsimp only at h1 h2
              cases hg1 : ext.generateTools st2.model key (detect d) st2.security_level
                  st1.pipeline with
              | error e => rw [hg1] at h1; exact Except.noConfusion h1
              | ok tools1 =>
                rw [hg1] at h1
                dsimp only at h1
                cases hg2 : ext.generateTools st2.model key (detect d) st2.security_level
                    st2.pipeline with
                | error e => rw [hg2] at h2; exact Except.noConfusion h2
                | ok tools2 =>
                  rw [hg2] at h2
                  dsimp only at h2
                  have e1 : tok = t1 := congrArg Prod.fst (Except.ok.inj h1)
                  have e2 : tok = t2 := congrArg Prod.fst (Except.ok.inj h2)
                  exact e1.symm.trans e2

/-- Claim C10: the token does not depend on the capability-derived
encryption tier.  For two orchestrators identical except that their
capability records differ only in the advanced-reasoning and
function-calling flags, successful encodes of the same input produce the
same token: key derivation, encryption and formatting all use the
construction-time security level, and the pipeline configuration only
enters the token path through the target size, a function of
token_efficiency alone. -/
theorem claim10_token_independent_of_tier {T : Type} (ext : Externals T)
    (m sec : String) (c1 c2 : Capabilities) (d : PyVal)
    (_hmc : c1.max_complexity = c2.max_complexity)
    (_hsb : c1.supports_binary = c2.supports_binary)
    (hte : c1.token_efficiency = c2.token_efficiency)
    (t1 t2 : String) (l1 l2 : T)
    (h1 : compress ext ⟨m, sec, buildPipeline c1⟩ d = .ok (t1, l1))
    (h2 : compress ext ⟨m, sec, buildPipeline c2⟩ d = .ok (t2, l2)) :
    t1 = t2 := by
  have hts : getTargetSize ⟨m, sec, buildPipeline c1⟩ =
      getTargetSize ⟨m, sec, buildPipeline c2⟩ := by
    simp [getTargetSize, buildPipeline, hte]
  have inv : ∀ (st : ReiState) (r : String × T), compress ext st d = .ok r →
      compressInner ext st d = .ok r := by
    intro st r h
    unfold compress at h
    cases hc : compressInner ext st d with
    | error e => rw [hc] at h; exact Except.noConfusion h
    | ok r2 =>
      rw [hc] at h
      dsimp only at h
      simp only [Except.ok.injEq] at h
      rw [h]
  exact compressInner_token_dep ext ⟨m, sec, buildPipeline c1⟩ ⟨m, sec, buildPipeline c2⟩
    d rfl rfl hts t1 t2 l1 l2 (inv _ _ h1) (inv _ _ h2)

/-- Trivial external collaborators used by the claim C10 witness: each
succeeds and passes its input through. -/
def extPass : Externals Unit :=
  ⟨fun _ tag => .ok ("t:" ++ tag), fun _ tag => .ok ("b:" ++ tag), fun s _ => .ok s,
   fun digest _ => .ok digest, fun s _ => .ok s, fun e _ _ => .ok e,
   fun _ _ _ _ _ => .ok ()⟩

/-- Capability record with the advanced-reasoning flag set. -/
def capsAdv : Capabilities :=
  ⟨Option.none, Option.none, Option.none, some true, Option.none⟩

/-- Capability record with no flags set. -/
def capsPlain : Capabilities :=
  ⟨Option.none, Option.none, Option.none, Option.none, Option.none⟩

/-- Claim C10 witness: two concrete orchestrators whose capabilities differ
only in the advanced-reasoning flag (so their pipelines carry different
encryption tiers) encode the input text into the same token. -/
theorem claim10_token_independent_of_tier_w :
    compress extPass ⟨"gpt-4o-mini", "standard", buildPipeline capsAdv⟩ (.vstr "hi") =
      .ok ("t:text/plain", ()) ∧
    compress extPass ⟨"gpt-4o-mini", "standard", buildPipeline capsPlain⟩ (.vstr "hi") =
      .ok ("t:text/plain", ()) ∧
    (buildPipeline capsAdv).encryption_level ≠ (buildPipeline capsPlain).encryption_level ∧
    ("t:text/plain" : String) = "t:text/plain" :=
  ⟨rfl, rfl, by decide,
   claim10_token_independent_of_tier extPass "gpt-4o-mini" "standard" capsAdv capsPlain
     (.vstr "hi") rfl rfl rfl _ _ () () rfl rfl⟩

end Rei
